import Mathlib

/-!
# Quiz Lifecycle Service — shallow embedding

Shallow embedding of the Express route handlers in
`src/backend/routes/quiz.js`.  The file contains two concatenated route
modules ("variant 1" and "variant 2") sharing the mongoose `Quiz` model;
definitions below carry a `V1` / `V2` suffix where the variants differ and
are written once, generically, where the variants' code is identical
(`/submit-answer`, `/submit`, `/leaderboard/:code`, `/:code/admin`).

Modelling conventions, applied uniformly:
* The document store is a parameter: every handler takes the result of
  `Quiz.findOne({ code })` as an `Option` value instead of performing I/O.
* A handler returns a pair: the HTTP response, and the state written back
  by `quiz.save()` / `findOneAndUpdate` (`none` when nothing is persisted).
* `new Date()` is modelled by an explicit `now : Nat` parameter.
* JavaScript string truthiness (`!title` rejecting both `undefined` and
  `""`) is modelled by comparison with `""`; request fields that can be a
  missing array or number are `Option` values (arrays are truthy in JS even
  when empty, so a present-but-empty list is not falsy).
* `score` values are `Int` (JSON numbers used only with `>`, `-`, `===`).
* The mongoose schema declares `options : [String]`, which defaults to an
  array, so the defensive `q.options || []` in the routes is the identity
  in the model and `Question.options` is a plain `List String`;
  `timeLimit` has no such schema default and stays `Option Nat`.
-/

/-- Embedded question, as persisted inside a `Quiz` document. -/
structure Question where
  text : String
  type : String
  options : List String
  correctAnswer : String
  timeLimit : Option Nat
  deriving DecidableEq

/-- Participant record pushed by variant 1's `/join`
(`{ userId, username, score }`). -/
structure Participant where
  userId : String
  username : String
  score : Int
  deriving DecidableEq

/-- Entry of the append-only `scores` array (`{ userId, score, submittedAt }`). -/
structure ScoreEntry where
  userId : String
  score : Int
  submittedAt : Nat
  deriving DecidableEq

/-- Entry of the append-only `answers` array
(`{ userId, questionIndex, answer, isCorrect, timestamp }`). -/
structure AnswerEntry where
  userId : String
  questionIndex : Int
  answer : String
  isCorrect : Bool
  timestamp : Nat
  deriving DecidableEq

/-- The `Quiz` document.  The two route variants store participants
differently (records vs. plain user-id strings), so the participant type is
a parameter: variant 1 instantiates `π := Participant`, variant 2
`π := String`.  Variant 2 never writes `creatorName`; documents it creates
carry `""` there (JS `undefined`). -/
structure Quiz (π : Type) where
  code : String
  title : String
  category : String
  createdBy : String
  creatorName : String
  status : String
  questions : List Question
  participants : List π
  scores : List ScoreEntry
  answers : List AnswerEntry
  startTime : Option Nat
  deriving DecidableEq

/-- HTTP response: `ok` carries the success JSON body, `err` carries the
status code and the `error` message string. -/
inductive Resp (α : Type) where
  | ok : α → Resp α
  | err : Nat → String → Resp α
  deriving DecidableEq

/-- `true` exactly on successful (2xx) responses. -/
def Resp.isOk : Resp α → Bool
  | .ok _ => true
  | .err _ _ => false

/-- Run a predicate on the success body of a response; vacuously true on
errors.  Used to state "whenever the handler succeeds, the body satisfies
`p`" without a hypothesis. -/
def Resp.onOk (r : Resp α) (p : α → Prop) : Prop :=
  match r with
  | .ok a => p a
  | .err _ _ => True

/-- JS `x || 30` on an optional number (`undefined` and `0` are falsy). -/
def jsOr30 : Option Nat → Nat
  | none => 30
  | some n => if n = 0 then 30 else n

/-- JS array indexing `xs[i]` for an integer index: `undefined` (here
`none`) outside `[0, xs.length)`. -/
def jsIndex (xs : List α) (i : Int) : Option α :=
  if h : 0 ≤ i ∧ i.toNat < xs.length then some (xs.get ⟨i.toNat, h.2⟩) else none

/-- The code alphabet of variant 1's `generateUniqueCode`. -/
def characters : String := "ABCDEFGHIJKLMNOPQRSTUVWXYZ0123456789"

/-- Variant 1 code generator: six characters, each
`characters.charAt(Math.floor(Math.random() * 36))`; the six random draws
are the argument `r`. -/
def generateUniqueCode (r : Fin 6 → Fin 36) : String :=
  String.mk ((List.finRange 6).map fun i =>
    characters.toList.get (Fin.cast (by decide) (r i)))

/-- Base-36 digit as the uppercased character `toString(36)` prints
(`0`–`9` then `A`–`Z`, after `.toUpperCase()`). -/
def digitCharUpper (d : Fin 36) : Char :=
  if d.val < 10 then Char.ofNat (48 + d.val) else Char.ofNat (55 + d.val)

/-- Variant 2 code generator,
`Math.random().toString(36).substring(2, 8).toUpperCase()`.
`ds` is the fractional base-36 digit expansion that `toString(36)` prints
after `"0."` (trailing zeros stripped; empty when the random number is `0`,
whose string `"0"` has no fractional part).  `substring(2, 8)` keeps at
most the first six fractional digits. -/
def codeV2 (ds : List (Fin 36)) : String :=
  String.mk ((ds.take 6).map digitCharUpper)

/-- Question object inside a create request's `questions` array; `text`,
`type`, `correctAnswer` may be absent (modelled `""`), `options` and
`timeLimit` may be absent (modelled `none`). -/
structure QuestionInput where
  text : String
  type : String
  options : Option (List String)
  correctAnswer : String
  timeLimit : Option Nat
  deriving DecidableEq

/-- Body of `POST /create`; both variants destructure the same fields
(variant 1 uses `createdBy`/`creatorName`, variant 2 uses `userId`). -/
structure CreateReq where
  title : String
  category : String
  questions : Option (List QuestionInput)
  userId : String
  createdBy : String
  creatorName : String
  deriving DecidableEq

/-- `questions.map(q => ({...}))` as run by both variants' create:
defaults `options` to `[]` and `timeLimit` to 30 (`q.timeLimit || 30`). -/
def storeQuestion (q : QuestionInput) : Question :=
  { text := q.text
    type := q.type
    options := (q.options).getD []
    correctAnswer := q.correctAnswer
    timeLimit := some (jsOr30 q.timeLimit) }

/-- Success body of variant 1's create (`{ success, code, message }`). -/
structure CreateRespV1 where
  success : Bool
  code : String
  message : String
  deriving DecidableEq

/-- Success body of variant 2's create (`{ message, code }`; the mongo
`quizId` is outside the model). -/
structure CreateRespV2 where
  message : String
  code : String
  deriving DecidableEq

/-- Variant 1 `POST /create`: validates only the top-level fields
(`!title || !category || !questions || !createdBy || !creatorName`) — no
per-question validation — then persists a quiz with status `"pending"`. -/
def createV1 (req : CreateReq) (r : Fin 6 → Fin 36) :
    Resp CreateRespV1 × Option (Quiz Participant) :=
  match req.questions with
  | none => (Resp.err 400 "Missing required fields", none)
  | some qs =>
    if req.title = "" ∨ req.category = "" ∨ req.createdBy = "" ∨ req.creatorName = "" then
      (Resp.err 400 "Missing required fields", none)
    else
      let code := generateUniqueCode r
      let quiz : Quiz Participant :=
        { code := code
          title := req.title
          category := req.category
          createdBy := req.createdBy
          creatorName := req.creatorName
          status := "pending"
          questions := qs.map storeQuestion
          participants := []
          scores := []
          answers := []
          startTime := none }
      (Resp.ok { success := true, code := code, message := "Quiz created successfully" },
       some quiz)

/-- `!question.options || question.options.length < 2` — the option check
of variant 2's create for multiple-choice questions. -/
def optionsTooFew : Option (List String) → Bool
  | none => true
  | some os => os.length < 2

/-- First validation error produced by variant 2's `for (const question of
questions)` loop, if any. -/
def firstQuestionError : List QuestionInput → Option String
  | [] => none
  | q :: qs =>
    if q.text = "" ∨ q.type = "" ∨ q.correctAnswer = "" then
      some "Invalid question format"
    else if q.type = "multiple" ∧ optionsTooFew q.options then
      some "Multiple choice questions must have at least 2 options"
    else firstQuestionError qs

/-- Variant 2 `POST /create`: validates top-level fields and each question
(`text`, `type`, `correctAnswer` present; `type == "multiple"` needs ≥ 2
options), then persists a quiz with status `"waiting"` and
`createdBy := userId`. -/
def createV2 (req : CreateReq) (ds : List (Fin 36)) :
    Resp CreateRespV2 × Option (Quiz String) :=
  match req.questions with
  | none => (Resp.err 400 "Missing required fields", none)
  | some qs =>
    if req.title = "" ∨ req.category = "" ∨ qs.length = 0 then
      (Resp.err 400 "Missing required fields", none)
    else
      match firstQuestionError qs with
      | some msg => (Resp.err 400 msg, none)
      | none =>
        let code := codeV2 ds
        let quiz : Quiz String :=
          { code := code
            title := req.title
            category := req.category
            createdBy := req.userId
            creatorName := ""
            status := "waiting"
            questions := qs.map storeQuestion
            participants := []
            scores := []
            answers := []
            startTime := none }
        (Resp.ok { message := "Quiz created successfully", code := code }, some quiz)

/-- Sanitized question of variant 1's responses:
`{ text, type, options: q.options || [], timeLimit: q.timeLimit || 30 }`
(`q.options || []` is the identity here, see the header). -/
structure SanitizedQuestionV1 where
  text : String
  type : String
  options : List String
  timeLimit : Nat
  deriving DecidableEq

/-- Variant 1's `questions.map(q => ...)` sanitizer. -/
def sanitizeQV1 (q : Question) : SanitizedQuestionV1 :=
  { text := q.text, type := q.type, options := q.options, timeLimit := jsOr30 q.timeLimit }

/-- Sanitized question of variant 2's responses:
`{ text, type, options, timeLimit }` verbatim. -/
structure SanitizedQuestionV2 where
  text : String
  type : String
  options : List String
  timeLimit : Option Nat
  deriving DecidableEq

/-- Variant 2's `questions.map(q => ...)` sanitizer. -/
def sanitizeQV2 (q : Question) : SanitizedQuestionV2 :=
  { text := q.text, type := q.type, options := q.options, timeLimit := q.timeLimit }

/-- Body of variant 1's `GET /:code` success response. -/
structure PublicViewV1 where
  code : String
  title : String
  category : String
  questions : List SanitizedQuestionV1
  status : String
  participantCount : Nat
  creatorName : String
  createdBy : String
  isCreator : Bool
  deriving DecidableEq

/-- Variant 1 `GET /:code`: 404 when absent, else the sanitized view;
`isCreator` compares `createdBy` with the optional `userId` query value
(`undefined === s` is `false`). -/
def getPublicV1 (quiz : Option (Quiz Participant)) (userId : Option String) :
    Resp PublicViewV1 :=
  match quiz with
  | none => Resp.err 404 "Quiz not found"
  | some q =>
    Resp.ok
      { code := q.code
        title := q.title
        category := q.category
        questions := q.questions.map sanitizeQV1
        status := q.status
        participantCount := q.participants.length
        creatorName := q.creatorName
        createdBy := q.createdBy
        isCreator := match userId with
          | some u => q.createdBy == u
          | none => false }

/-- Body of variant 2's `GET /:code` success response. -/
structure PublicViewV2 where
  code : String
  title : String
  category : String
  questions : List SanitizedQuestionV2
  status : String
  participantCount : Nat
  deriving DecidableEq

/-- Variant 2 `GET /:code`. -/
def getPublicV2 (quiz : Option (Quiz String)) : Resp PublicViewV2 :=
  match quiz with
  | none => Resp.err 404 "Quiz not found"
  | some q =>
    Resp.ok
      { code := q.code
        title := q.title
        category := q.category
        questions := q.questions.map sanitizeQV2
        status := q.status
        participantCount := q.participants.length }

/-- `GET /:code/admin`, identical in both variants up to the name of the
destructured body field (`createdBy` vs. `userId`): 404 when absent, 403
when the caller-supplied identity differs from `quiz.createdBy`, else the
full document (`res.json(quiz)`), `correctAnswer` included. -/
def getAdmin (quiz : Option (Quiz π)) (suppliedIdentity : String) :
    Resp (Quiz π) :=
  match quiz with
  | none => Resp.err 404 "Quiz not found"
  | some q =>
    if q.createdBy ≠ suppliedIdentity then Resp.err 403 "Unauthorized access"
    else Resp.ok q

/-- Quiz object embedded in variant 1's `/join` success response. -/
structure JoinQuizViewV1 where
  title : String
  category : String
  questions : List SanitizedQuestionV1
  participants : List Participant
  participantCount : Nat
  status : String
  creatorName : String
  createdBy : String
  code : String
  deriving DecidableEq

/-- Body of variant 1's `/join` success response. -/
structure JoinRespV1 where
  success : Bool
  message : String
  quiz : JoinQuizViewV1
  deriving DecidableEq

/-- The `quiz: {...}` object variant 1's `/join` builds from a document. -/
def joinQuizViewV1 (q : Quiz Participant) : JoinQuizViewV1 :=
  { title := q.title
    category := q.category
    questions := q.questions.map sanitizeQV1
    participants := q.participants
    participantCount := q.participants.length
    status := q.status
    creatorName := q.creatorName
    createdBy := q.createdBy
    code := q.code }

/-- Variant 1 `POST /join`: validates the three body fields, requires
status `"pending"`, and pushes `{ userId, username, score: 0 }` via
`findOneAndUpdate` only when `userId` is not yet among the participants;
re-joining returns the current state and persists nothing.  (The handler's
`if (!updatedQuiz)` branch cannot fire in this single-store model.) -/
def joinV1 (quiz : Option (Quiz Participant)) (code userId username : String) :
    Resp JoinRespV1 × Option (Quiz Participant) :=
  if code = "" ∨ userId = "" ∨ username = "" then
    (Resp.err 400 "Missing required fields", none)
  else
    match quiz with
    | none => (Resp.err 404 "Quiz not found", none)
    | some q =>
      if q.status ≠ "pending" then (Resp.err 400 "Quiz has already started", none)
      else
        match q.participants.find? (fun p => p.userId == userId) with
        | none =>
          let updated : Quiz Participant :=
            { q with participants :=
                q.participants ++ [{ userId := userId, username := username, score := 0 }] }
          (Resp.ok { success := true, message := "Joined quiz successfully",
                     quiz := joinQuizViewV1 updated },
           some updated)
        | some _ =>
          (Resp.ok { success := true, message := "Already joined quiz",
                     quiz := joinQuizViewV1 q },
           none)

/-- Quiz object embedded in variant 2's `/join` success response. -/
structure JoinQuizViewV2 where
  title : String
  category : String
  questions : List SanitizedQuestionV2
  participantCount : Nat
  deriving DecidableEq

/-- Body of variant 2's `/join` success response. -/
structure JoinRespV2 where
  message : String
  quiz : JoinQuizViewV2
  deriving DecidableEq

/-- Variant 2 `POST /join`: requires status `"waiting"`; pushes the plain
`userId` string and saves unless already present.  The response is built
from the in-memory `quiz` object after the conditional push, so it always
reflects the post-join participant list. -/
def joinV2 (quiz : Option (Quiz String)) (userId : String) :
    Resp JoinRespV2 × Option (Quiz String) :=
  match quiz with
  | none => (Resp.err 404 "Quiz not found", none)
  | some q =>
    if q.status ≠ "waiting" then (Resp.err 400 "Quiz has already started", none)
    else
      let already := q.participants.contains userId
      let updated : Quiz String :=
        if already then q else { q with participants := q.participants ++ [userId] }
      (Resp.ok { message := "Joined quiz successfully",
                 quiz := { title := updated.title
                           category := updated.category
                           questions := updated.questions.map sanitizeQV2
                           participantCount := updated.participants.length } },
       if already then none else some updated)

/-- Body of a `/start` success response (variant 1; variant 2's is the
same shape with its own sanitizer). -/
structure StartRespV1 where
  success : Bool
  message : String
  questions : List SanitizedQuestionV1
  deriving DecidableEq

/-- Variant 1 `POST /start`: validates body fields, authorizes by
`creatorName`, rejects an already-`"active"` quiz (400), rejects an empty
participant list, else sets `status := "active"` and `startTime` and
returns the sanitized questions. -/
def startV1 (quiz : Option (Quiz Participant)) (code creatorName : String) (now : Nat) :
    Resp StartRespV1 × Option (Quiz Participant) :=
  if code = "" ∨ creatorName = "" then
    (Resp.err 400 "Missing required fields", none)
  else
    match quiz with
    | none => (Resp.err 404 "Quiz not found", none)
    | some q =>
      if q.creatorName ≠ creatorName then
        (Resp.err 403 "Only quiz creator can start the quiz", none)
      else if q.status = "active" then
        (Resp.err 400 "Quiz is already started", none)
      else if q.participants.length < 1 then
        (Resp.err 400 "Cannot start quiz with no participants", none)
      else
        let updated : Quiz Participant := { q with status := "active", startTime := some now }
        (Resp.ok { success := true, message := "Quiz started successfully",
                   questions := q.questions.map sanitizeQV1 },
         some updated)

/-- Body of variant 2's `/start` success response. -/
structure StartRespV2 where
  success : Bool
  message : String
  questions : List SanitizedQuestionV2
  deriving DecidableEq

/-- Variant 2 `POST /start`: authorizes by `createdBy`, rejects an empty
participant list — and performs **no status check**: an already-active quiz
is started again (status rewritten, `startTime` reset). -/
def startV2 (quiz : Option (Quiz String)) (userId : String) (now : Nat) :
    Resp StartRespV2 × Option (Quiz String) :=
  match quiz with
  | none => (Resp.err 404 "Quiz not found", none)
  | some q =>
    if q.createdBy ≠ userId then
      (Resp.err 403 "Only quiz creator can start the quiz", none)
    else if q.participants.length = 0 then
      (Resp.err 400 "Cannot start quiz with no participants", none)
    else
      let updated : Quiz String := { q with status := "active", startTime := some now }
      (Resp.ok { success := true, message := "Quiz started successfully",
                 questions := q.questions.map sanitizeQV2 },
       some updated)

/-- Body of a `/submit-answer` success response. -/
structure SubmitAnswerResp where
  success : Bool
  correct : Bool
  correctAnswer : String
  deriving DecidableEq

/-- `POST /submit-answer`, identical in both variants: requires status
`"active"`, indexes `quiz.questions[questionIndex]` (undefined ⇒ 400),
computes `isCorrect = (question.correctAnswer === answer)`, appends the
answer record, and returns the correctness flag together with that
question's `correctAnswer`.  (`if (!quiz.answers) quiz.answers = []` is
the identity here since `answers` is always a list in the model.) -/
def submitAnswer (quiz : Option (Quiz π)) (userId : String) (questionIndex : Int)
    (answer : String) (now : Nat) : Resp SubmitAnswerResp × Option (Quiz π) :=
  match quiz with
  | none => (Resp.err 404 "Quiz not found", none)
  | some q =>
    if q.status ≠ "active" then (Resp.err 400 "Quiz is not active", none)
    else
      match jsIndex q.questions questionIndex with
      | none => (Resp.err 400 "Invalid question index", none)
      | some question =>
        let isCorrect := question.correctAnswer == answer
        let updated : Quiz π :=
          { q with answers := q.answers ++
              [{ userId := userId, questionIndex := questionIndex, answer := answer,
                 isCorrect := isCorrect, timestamp := now }] }
        (Resp.ok { success := true, correct := isCorrect,
                   correctAnswer := question.correctAnswer },
         some updated)

/-- Body of a `/submit` success response. -/
structure SubmitScoreResp where
  message : String
  currentRank : Nat
  deriving DecidableEq

/-- `POST /submit`, identical in both variants: no status precondition;
pushes `{ userId, score, submittedAt }` and returns
`quiz.scores.filter(s => s.score > score).length + 1` computed over the
already-pushed list. -/
def submitScore (quiz : Option (Quiz π)) (userId : String) (score : Int) (now : Nat) :
    Resp SubmitScoreResp × Option (Quiz π) :=
  match quiz with
  | none => (Resp.err 404 "Quiz not found", none)
  | some q =>
    let newScores := q.scores ++ [{ userId := userId, score := score, submittedAt := now }]
    let updated : Quiz π := { q with scores := newScores }
    (Resp.ok { message := "Score submitted successfully",
               currentRank := (newScores.filter (fun s => score < s.score)).length + 1 },
     some updated)

/-- Leaderboard entry: a score entry spread together with its 1-based rank. -/
structure LeaderboardEntry where
  userId : String
  score : Int
  submittedAt : Nat
  rank : Nat
  deriving DecidableEq

/-- The ranked list `GET /leaderboard/:code` builds:
`scores.sort((a, b) => b.score - a.score)` — a stable sort placing `a`
before `b` when `b.score ≤ a.score` — then `rank = index + 1`. -/
def rankScores (scores : List ScoreEntry) : List LeaderboardEntry :=
  ((scores.mergeSort fun a b => b.score ≤ a.score).enum).map fun p =>
    { userId := p.2.userId, score := p.2.score, submittedAt := p.2.submittedAt,
      rank := p.1 + 1 }

/-- `GET /leaderboard/:code`, identical in both variants: 404 when absent,
else the ranked list.  (The in-place `sort` is not saved back.) -/
def leaderboard (quiz : Option (Quiz π)) : Resp (List LeaderboardEntry) :=
  match quiz with
  | none => Resp.err 404 "Quiz not found"
  | some q => Resp.ok (rankScores q.scores)

/-! ## Concrete fixtures used by witnesses and counterexamples -/

/-- A well-formed multiple-choice question. -/
def sampleQuestion : Question :=
  { text := "Q1", type := "multiple", options := ["A", "B"],
    correctAnswer := "A", timeLimit := some 30 }

/-- A variant-1 quiz in the `"pending"` state with one participant. -/
def pendingQuiz : Quiz Participant :=
  { code := "ABC123", title := "T", category := "C", createdBy := "u1",
    creatorName := "U1", status := "pending", questions := [sampleQuestion],
    participants := [{ userId := "u2", username := "Bob", score := 0 }],
    scores := [], answers := [], startTime := none }

/-- The same quiz after a successful start. -/
def activeQuiz : Quiz Participant :=
  { pendingQuiz with status := "active", startTime := some 1 }

/-- A variant-2 quiz in the `"waiting"` state with one participant. -/
def waitingQuizV2 : Quiz String :=
  { code := "ABC123", title := "T", category := "C", createdBy := "u1",
    creatorName := "", status := "waiting", questions := [sampleQuestion],
    participants := ["u2"], scores := [], answers := [], startTime := none }

/-- `waitingQuizV2` after its first successful start: already `"active"`. -/
def startedQuizV2 : Quiz String :=
  { waitingQuizV2 with status := "active", startTime := some 1 }

/-- A quiz holding the pre-existing scores 90 and 70. -/
def scoresQuiz : Quiz Participant :=
  { pendingQuiz with scores := [{ userId := "a", score := 90, submittedAt := 0 },
                                { userId := "b", score := 70, submittedAt := 1 }] }

/-- Scores 50, 90, 70 submitted by three users, in submission order. -/
def threeScores : List ScoreEntry :=
  [{ userId := "u1", score := 50, submittedAt := 0 },
   { userId := "u2", score := 90, submittedAt := 1 },
   { userId := "u3", score := 70, submittedAt := 2 }]

/-- A well-formed create-request question. -/
def validQInput : QuestionInput :=
  { text := "Q1", type := "multiple", options := some ["A", "B"],
    correctAnswer := "A", timeLimit := none }

/-- A question missing its `text` (JS `undefined`/`""`). -/
def badQInput : QuestionInput :=
  { text := "", type := "multiple", options := some ["A", "B"],
    correctAnswer := "A", timeLimit := none }

/-- A create request that is valid in both variants. -/
def validReq : CreateReq :=
  { title := "T", category := "C", questions := some [validQInput],
    userId := "u1", createdBy := "u1", creatorName := "U1" }

/-- A create request whose only question lacks `text`. -/
def badReq : CreateReq :=
  { title := "T", category := "C", questions := some [badQInput],
    userId := "u1", createdBy := "u1", creatorName := "U1" }

/-! ## Claims -/

/-- **C7.** For every existing quiz, `submitScore` returns `currentRank`
equal to 1 plus the number of entries in the scores list *prior* to this
submission whose score is strictly greater than the submitted score (the
freshly pushed entry never satisfies `s.score > score`), and appends the
new entry; in particular, submitting 80 against existing scores [90, 70]
returns rank 2. -/
theorem C7_submitScore_rank :
    (∀ {π : Type} (q : Quiz π) (uid : String) (sc : Int) (now : Nat),
      submitScore (some q) uid sc now =
        (Resp.ok { message := "Score submitted successfully",
                   currentRank :=
                     (q.scores.filter (fun s => decide (sc < s.score))).length + 1 },
         some { q with scores :=
                  q.scores ++ [{ userId := uid, score := sc, submittedAt := now }] }))
    ∧ (submitScore (some scoresQuiz) "u3" 80 2).1 =
        Resp.ok { message := "Score submitted successfully", currentRank := 2 } := by
  constructor
  · intro π q uid sc now
    simp [submitScore, List.filter_append, lt_irrefl]
  · decide

/-- **C9 counterexample.** When no quiz with the given code exists,
`getAdmin` fails with 404, not with the claimed 403. -/
theorem C9_counterexample :
    getAdmin (π := Participant) none "attacker" = Resp.err 404 "Quiz not found" ∧
    getAdmin (π := Participant) none "attacker" ≠ Resp.err 403 "Unauthorized access" := by
  decide

/-- **C9 (amended).** When a quiz with the code exists and the supplied
identity differs from its stored `createdBy`, `getAdmin` fails with 403;
when no quiz with the code exists, it fails with 404. -/
theorem C9_getAdmin_auth :
    (∀ {π : Type} (q : Quiz π) (supplied : String),
      q.createdBy ≠ supplied → getAdmin (some q) supplied = Resp.err 403 "Unauthorized access")
    ∧ ∀ {π : Type} (supplied : String),
        getAdmin (π := π) none supplied = Resp.err 404 "Quiz not found" := by
  constructor
  · intro π q supplied h
    simp [getAdmin, h]
  · intro π supplied
    simp [getAdmin]

/-- **C9 witness.** The amended theorem applied to a concrete quiz created
by `"u1"` and the mismatching identity `"attacker"`, and to an absent
quiz. -/
theorem C9_witness :
    getAdmin (some pendingQuiz) "attacker" = Resp.err 403 "Unauthorized access" ∧
    getAdmin (π := Participant) none "attacker" = Resp.err 404 "Quiz not found" :=
  ⟨C9_getAdmin_auth.1 pendingQuiz "attacker" (by decide),
   C9_getAdmin_auth.2 "attacker"⟩

/-- **C10.** `submitScore` imposes no quiz-status precondition: for every
existing quiz, whatever its status, it succeeds and appends the entry —
unlike `submitAnswer`, which fails with 400 whenever the status is not
`"active"`. -/
theorem C10_submitScore_no_status_precondition :
    (∀ {π : Type} (q : Quiz π) (uid : String) (sc : Int) (now : Nat),
      ((submitScore (some q) uid sc now).1).isOk = true ∧
      ((submitScore (some q) uid sc now).2).map (fun q2 => q2.scores) =
        some (q.scores ++ [{ userId := uid, score := sc, submittedAt := now }]))
    ∧ ∀ {π : Type} (q : Quiz π) (uid : String) (qi : Int) (ans : String) (now : Nat),
        q.status ≠ "active" →
        submitAnswer (some q) uid qi ans now = (Resp.err 400 "Quiz is not active", none) := by
  constructor
  · intro π q uid sc now
    exact ⟨rfl, rfl⟩
  · intro π q uid qi ans now h
    simp [submitAnswer, h]

/-- **C10 witness.** A quiz still in the `"pending"` state accepts a score
submission but rejects an answer submission. -/
theorem C10_witness :
    (((submitScore (some pendingQuiz) "u2" 5 3).1).isOk = true ∧
      ((submitScore (some pendingQuiz) "u2" 5 3).2).map (fun q2 => q2.scores) =
        some (pendingQuiz.scores ++ [{ userId := "u2", score := 5, submittedAt := 3 }])) ∧
    submitAnswer (some pendingQuiz) "u2" 0 "A" 3 = (Resp.err 400 "Quiz is not active", none) :=
  ⟨C10_submitScore_no_status_precondition.1 pendingQuiz "u2" 5 3,
   C10_submitScore_no_status_precondition.2 pendingQuiz "u2" 0 "A" 3 (by decide)⟩

/-- **C2 counterexample.** Variant 2's `/start` performs no status check:
on a quiz that is already `"active"` (here: one started a moment earlier),
a second `start` by the creator succeeds and rewrites the state
(`startTime` reset), instead of failing with 400 as claimed. -/
theorem C2_counterexample :
    startedQuizV2.status = "active" ∧
    ((startV2 (some startedQuizV2) "u1" 5).1).isOk = true ∧
    (startV2 (some startedQuizV2) "u1" 5).2 =
      some { startedQuizV2 with startTime := some 5 } := by
  decide

/-- **C2 (amended).** In variant 1, calling `/start` on a quiz whose
status is already `"active"` (with well-formed fields and the matching
creator name) fails with 400 and persists nothing; variant 2 lacks the
status check, so there the property fails. -/
theorem C2_startV1_active_conflict (q : Quiz Participant) (code creatorName : String)
    (now : Nat) (hcode : code ≠ "") (hcn : creatorName ≠ "")
    (hcreator : q.creatorName = creatorName) (hactive : q.status = "active") :
    startV1 (some q) code creatorName now = (Resp.err 400 "Quiz is already started", none) := by
  simp [startV1, hcode, hcn, hcreator, hactive]

/-- **C2 witness.** A second `start` of the concrete active variant-1 quiz
fails with the conflict error and leaves the store untouched. -/
theorem C2_witness :
    startV1 (some activeQuiz) "ABC123" "U1" 7 =
      (Resp.err 400 "Quiz is already started", none) :=
  C2_startV1_active_conflict activeQuiz "ABC123" "U1" 7 (by decide) (by decide) rfl rfl

/-- Every uppercased base-36 digit lies in variant 1's code alphabet. -/
theorem digitCharUpper_mem_alphabet :
    ∀ d : Fin 36, characters.toList.contains (digitCharUpper d) = true := by
  decide

/-- **C3 counterexample.** A valid create request against variant 2 with
`Math.random() = 0.5` (base-36 expansion `"0.i"`, a single fractional
digit) succeeds and persists a quiz whose join code is `"I"` — one
character, not six. -/
theorem C3_counterexample :
    (createV2 validReq [(18 : Fin 36)]).1 =
      Resp.ok { message := "Quiz created successfully", code := "I" } ∧
    ((createV2 validReq [(18 : Fin 36)]).2).map (fun q => q.code) = some "I" ∧
    "I".length ≠ 6 := by
  decide

/-- **C3 (amended).** Variant 1's generated code is always exactly six
characters from the alphabet {A–Z, 0–9}; variant 2's code stays inside
that alphabet but only has *at most* six characters — it is shorter
whenever the random number's base-36 expansion terminates within six
digits. -/
theorem C3_code_properties :
    (∀ r : Fin 6 → Fin 36,
      (generateUniqueCode r).length = 6 ∧
      ((generateUniqueCode r).toList.all fun c => characters.toList.contains c) = true)
    ∧ ∀ ds : List (Fin 36),
        (codeV2 ds).length ≤ 6 ∧
        ((codeV2 ds).toList.all fun c => characters.toList.contains c) = true := by
  constructor
  · intro r
    constructor
    · show ((List.finRange 6).map _).length = 6
      simp
    · rw [List.all_eq_true]
      intro c hc
      obtain ⟨i, -, rfl⟩ := List.mem_map.1 hc
      show characters.toList.elem _ = true
      exact List.elem_iff.mpr (List.get_mem _ _ _)
  · intro ds
    constructor
    · show ((ds.take 6).map digitCharUpper).length ≤ 6
      simp [List.length_take]
    · rw [List.all_eq_true]
      intro c hc
      obtain ⟨d, -, rfl⟩ := List.mem_map.1 hc
      exact digitCharUpper_mem_alphabet d

/-- Variant 2's question-validation loop reports an error whenever some
question in the list is invalid. -/
theorem firstQuestionError_isSome_of_bad (qs : List QuestionInput)
    (hbad : ∃ qu ∈ qs, qu.text = "" ∨ qu.type = "" ∨ qu.correctAnswer = "" ∨
      (qu.type = "multiple" ∧ optionsTooFew qu.options = true)) :
    (firstQuestionError qs).isSome = true := by
  induction qs with
  | nil => simp at hbad
  | cons q qs ih =>
    simp only [firstQuestionError]
    split
    · simp
    · split
      · simp
      · rename_i h1 h2
        apply ih
        obtain ⟨qu, hmem, hb⟩ := hbad
        rcases List.mem_cons.mp hmem with rfl | hmem'
        · exfalso
          rcases hb with hb | hb | hb | hb
          · exact h1 (Or.inl hb)
          · exact h1 (Or.inr (Or.inl hb))
          · exact h1 (Or.inr (Or.inr hb))
          · exact h2 hb
        · exact ⟨qu, hmem', hb⟩

/-- **C4 counterexample.** Variant 1's create performs no per-question
validation: a request whose only question lacks `text` is accepted (ok
response) and a quiz containing that blank question is persisted. -/
theorem C4_counterexample :
    ((createV1 badReq (fun _ => 0)).1).isOk = true ∧
    ((createV1 badReq (fun _ => 0)).2).map (fun q => q.questions.map Question.text) =
      some [""] := by
  decide

/-- **C4 (amended).** Variant 2's create fails with a 400 error and
persists nothing whenever any question lacks `text`, `type`, or
`correctAnswer`, or has type `"multiple"` with fewer than two options;
variant 1 validates only the top-level fields and accepts such
requests. -/
theorem C4_createV2_validates (req : CreateReq) (qs : List QuestionInput)
    (ds : List (Fin 36)) (hqs : req.questions = some qs)
    (hbad : ∃ qu ∈ qs, qu.text = "" ∨ qu.type = "" ∨ qu.correctAnswer = "" ∨
      (qu.type = "multiple" ∧ optionsTooFew qu.options = true)) :
    (createV2 req ds).2 = none ∧ ∃ msg, (createV2 req ds).1 = Resp.err 400 msg := by
  have hsome := firstQuestionError_isSome_of_bad qs hbad
  obtain ⟨msg, hmsg⟩ := Option.isSome_iff_exists.mp hsome
  simp only [createV2, hqs]
  by_cases htop : req.title = "" ∨ req.category = "" ∨ qs.length = 0
  · rw [if_pos htop]
    exact ⟨rfl, "Missing required fields", rfl⟩
  · rw [if_neg htop, hmsg]
    exact ⟨rfl, msg, rfl⟩

/-- **C4 witness.** The amended theorem applied to the concrete request
whose only question lacks `text`. -/
theorem C4_witness :
    (createV2 badReq []).2 = none ∧ ∃ msg, (createV2 badReq []).1 = Resp.err 400 msg :=
  C4_createV2_validates badReq [badQInput] [] rfl ⟨badQInput, by simp, by decide⟩

/-- **C5.** For every active quiz, `submitAnswer` with a `questionIndex`
outside `[0, questions.length)` fails with 400 and appends nothing; for an
in-bounds index it succeeds, appends exactly one answer record, and the
returned `correct` flag is true iff the submitted answer is string-equal
(case-sensitive, no normalization) to that question's `correctAnswer`. -/
theorem C5_submitAnswer_bounds_and_equality {π : Type} (q : Quiz π) (uid : String)
    (qi : Int) (ans : String) (now : Nat) (hactive : q.status = "active") :
    ((qi < 0 ∨ (q.questions.length : Int) ≤ qi) →
      submitAnswer (some q) uid qi ans now = (Resp.err 400 "Invalid question index", none))
    ∧ ∀ question, jsIndex q.questions qi = some question →
        submitAnswer (some q) uid qi ans now =
          (Resp.ok { success := true, correct := question.correctAnswer == ans,
                     correctAnswer := question.correctAnswer },
           some { q with answers := q.answers ++
                    [{ userId := uid, questionIndex := qi, answer := ans,
                       isCorrect := question.correctAnswer == ans, timestamp := now }] })
          ∧ ((question.correctAnswer == ans) = true ↔ ans = question.correctAnswer) := by
  constructor
  · intro hout
    have hnone : jsIndex q.questions qi = none := by
      unfold jsIndex
      rw [dif_neg]
      omega
    simp [submitAnswer, hactive, hnone]
  · intro question hsome
    refine ⟨by simp [submitAnswer, hactive, hsome], ?_⟩
    constructor
    · intro h
      exact (beq_iff_eq.mp h).symm
    · intro h
      exact beq_iff_eq.mpr h.symm

/-- **C5 witness.** On the concrete active quiz: index `-1` is rejected
with nothing appended, while index `0` with the exactly-matching answer
`"A"` succeeds. -/
theorem C5_witness :
    (submitAnswer (π := Participant) (some activeQuiz) "u2" (-1) "A" 2).1 =
      Resp.err 400 "Invalid question index" ∧
    ((submitAnswer (π := Participant) (some activeQuiz) "u2" 0 "A" 2).1).isOk = true := by
  constructor
  · have h := (C5_submitAnswer_bounds_and_equality activeQuiz "u2" (-1) "A" 2 rfl).1
      (by left; decide)
    rw [h]
  · have h := ((C5_submitAnswer_bounds_and_equality activeQuiz "u2" 0 "A" 2 rfl).2
      sampleQuestion (by decide)).1
    rw [h]
    rfl

/-- **C6.** Join is idempotent per (code, userId) in both variants: from a
quiz in the waiting state (`"pending"` in variant 1, `"waiting"` in
variant 2), after one join with a given userId the second join with the
same userId persists nothing (`none`) and returns the current quiz state
without error. -/
theorem C6_join_idempotent :
    (∀ (q : Quiz Participant) (code uid un : String),
      code ≠ "" → uid ≠ "" → un ≠ "" → q.status = "pending" →
      ∀ q1, q1 = ((joinV1 (some q) code uid un).2).getD q →
        joinV1 (some q1) code uid un =
          (Resp.ok { success := true, message := "Already joined quiz",
                     quiz := joinQuizViewV1 q1 }, none))
    ∧ ∀ (q : Quiz String) (uid : String), q.status = "waiting" →
        ∀ q1, q1 = ((joinV2 (some q) uid).2).getD q →
          joinV2 (some q1) uid =
            (Resp.ok { message := "Joined quiz successfully",
                       quiz := { title := q1.title, category := q1.category,
                                 questions := q1.questions.map sanitizeQV2,
                                 participantCount := q1.participants.length } },
             none) := by
  constructor
  · intro q code uid un hc hu hn hs q1 hq1
    have hcond : ¬(code = "" ∨ uid = "" ∨ un = "") := by tauto
    cases hfind : q.participants.find? (fun p => p.userId == uid) with
    | some p =>
      have h2 : (joinV1 (some q) code uid un).2 = none := by
        simp [joinV1, hcond, hs, hfind]
      have hq1' : q1 = q := by rw [hq1, h2]; rfl
      subst hq1'
      simp [joinV1, hcond, hs, hfind]
    | none =>
      have h2 : (joinV1 (some q) code uid un).2 =
          some { q with participants :=
            q.participants ++ [{ userId := uid, username := un, score := 0 }] } := by
        simp [joinV1, hcond, hs, hfind]
      have hq1' : q1 = { q with participants :=
          q.participants ++ [{ userId := uid, username := un, score := 0 }] } := by
        rw [hq1, h2]; rfl
      subst hq1'
      simp [joinV1, hcond, hs, hfind]
  · intro q uid hs q1 hq1
    by_cases hmem : uid ∈ q.participants
    · have h2 : (joinV2 (some q) uid).2 = none := by
        simp [joinV2, hs, hmem]
      have hq1' : q1 = q := by rw [hq1, h2]; rfl
      subst hq1'
      simp [joinV2, hs, hmem]
    · have h2 : (joinV2 (some q) uid).2 =
          some { q with participants := q.participants ++ [uid] } := by
        simp [joinV2, hs, hmem]
      have hq1' : q1 = { q with participants := q.participants ++ [uid] } := by
        rw [hq1, h2]; rfl
      subst hq1'
      simp [joinV2, hs]

/-- **C6 witness.** A fresh user joins the concrete pending/waiting quiz of
each variant; the repeated join returns the current state and persists
nothing. -/
theorem C6_witness :
    joinV1 (some (((joinV1 (some pendingQuiz) "ABC123" "u3" "Eve").2).getD pendingQuiz))
        "ABC123" "u3" "Eve" =
      (Resp.ok { success := true, message := "Already joined quiz",
                 quiz := joinQuizViewV1
                   (((joinV1 (some pendingQuiz) "ABC123" "u3" "Eve").2).getD pendingQuiz) },
       none)
    ∧ joinV2 (some (((joinV2 (some waitingQuizV2) "u3").2).getD waitingQuizV2)) "u3" =
      (Resp.ok { message := "Joined quiz successfully",
                 quiz := { title :=
                             (((joinV2 (some waitingQuizV2) "u3").2).getD waitingQuizV2).title,
                           category :=
                             (((joinV2 (some waitingQuizV2) "u3").2).getD waitingQuizV2).category,
                           questions :=
                             (((joinV2 (some waitingQuizV2) "u3").2).getD
                               waitingQuizV2).questions.map sanitizeQV2,
                           participantCount :=
                             (((joinV2 (some waitingQuizV2) "u3").2).getD
                               waitingQuizV2).participants.length } },
       none) :=
  ⟨C6_join_idempotent.1 pendingQuiz "ABC123" "u3" "Eve" (by decide) (by decide) (by decide)
      rfl _ rfl,
   C6_join_idempotent.2 waitingQuizV2 "u3" rfl _ rfl⟩

/-- The ranked list is a permutation of the raw scores list (forgetting
the rank annotation recovers the sorted scores). -/
theorem rankScores_map_entry (scores : List ScoreEntry) :
    (rankScores scores).map
        (fun e => ScoreEntry.mk e.userId e.score e.submittedAt) =
      scores.mergeSort fun a b => b.score ≤ a.score := by
  simp only [rankScores, List.map_map]
  exact List.enum_map_snd (scores.mergeSort fun a b => b.score ≤ a.score)

/-- The sorted scores list produced by the leaderboard comparator is
pairwise descending. -/
theorem mergeSort_scores_pairwise (scores : List ScoreEntry) :
    (scores.mergeSort fun a b => b.score ≤ a.score).Pairwise
      (fun a b => decide (b.score ≤ a.score) = true) := by
  apply List.sorted_mergeSort
  · intro a b c hab hbc
    simp only [decide_eq_true_eq] at hab hbc ⊢
    omega
  · intro a b
    simp only [Bool.or_eq_true, decide_eq_true_eq]
    omega

/-- **C8.** `leaderboard` returns the scores sorted descending by score
value, each entry annotated with `rank = position + 1` (rank 1 for a
highest score), and the returned entries are a permutation of the stored
scores; for the three users who submitted [50, 90, 70] the ranks are
[3, 1, 2] respectively. -/
theorem C8_leaderboard_sorted_ranked :
    (∀ {π : Type} (q : Quiz π), leaderboard (some q) = Resp.ok (rankScores q.scores))
    ∧ (∀ scores : List ScoreEntry,
        (rankScores scores).Pairwise (fun a b => b.score ≤ a.score))
    ∧ (∀ scores : List ScoreEntry,
        (rankScores scores).map (fun e => e.rank) =
          (List.range scores.length).map (fun k => k + 1))
    ∧ (∀ scores : List ScoreEntry,
        List.Perm
          ((rankScores scores).map
            (fun e => ScoreEntry.mk e.userId e.score e.submittedAt))
          scores)
    ∧ rankScores threeScores =
        [{ userId := "u2", score := 90, submittedAt := 1, rank := 1 },
         { userId := "u3", score := 70, submittedAt := 2, rank := 2 },
         { userId := "u1", score := 50, submittedAt := 0, rank := 3 }] := by
  refine ⟨fun q => rfl, ?_, ?_, ?_, ?_⟩
  · intro scores
    have hp := mergeSort_scores_pairwise scores
    rw [rankScores, List.pairwise_map, List.pairwise_iff_getElem]
    intro i j hi hj hij
    simp only [List.enum_length] at hi hj
    have h := (List.pairwise_iff_getElem.mp hp) i j hi hj hij
    simp only [decide_eq_true_eq] at h
    simpa [List.getElem_enum] using h
  · intro scores
    have h2 : (rankScores scores).map (fun e => e.rank) =
        (((scores.mergeSort fun a b => b.score ≤ a.score).enum).map Prod.fst).map
          (fun k => k + 1) := by
      simp only [rankScores, List.map_map]
      rfl
    rw [h2, List.enum_map_fst, List.length_mergeSort]
  · intro scores
    rw [rankScores_map_entry]
    exact List.mergeSort_perm scores _
  · have hms : threeScores.mergeSort (fun a b => b.score ≤ a.score) =
        [{ userId := "u2", score := 90, submittedAt := 1 },
         { userId := "u3", score := 70, submittedAt := 2 },
         { userId := "u1", score := 50, submittedAt := 0 }] := by
      simp [threeScores, List.mergeSort, List.splitInTwo, List.splitAt,
        List.splitAt.go, List.merge]
    rw [rankScores, hms]
    rfl

/-- **C1.** Non-admin responses only ever carry sanitized question lists:
whatever `getPublic`, `join` or `start` (both variants) return on success,
the question entries are images of the sanitizers — whose output type has
no `correctAnswer` field and whose value is unchanged when a question's
`correctAnswer` is replaced arbitrarily.  `correctAnswer` is revealed
exactly by `submitAnswer`'s response for the submitted question and by
`getAdmin`'s full document. -/
theorem C1_correctAnswer_only_admin_or_own_submission :
    (∀ (q : Quiz Participant) (uid : Option String),
      (getPublicV1 (some q) uid).onOk fun v => v.questions = q.questions.map sanitizeQV1)
    ∧ (∀ q : Quiz String,
        (getPublicV2 (some q)).onOk fun v => v.questions = q.questions.map sanitizeQV2)
    ∧ (∀ (q : Quiz Participant) (code uid un : String),
        ((joinV1 (some q) code uid un).1).onOk fun v =>
          v.quiz.questions = q.questions.map sanitizeQV1)
    ∧ (∀ (q : Quiz String) (uid : String),
        ((joinV2 (some q) uid).1).onOk fun v =>
          v.quiz.questions = q.questions.map sanitizeQV2)
    ∧ (∀ (q : Quiz Participant) (code cn : String) (now : Nat),
        ((startV1 (some q) code cn now).1).onOk fun v =>
          v.questions = q.questions.map sanitizeQV1)
    ∧ (∀ (q : Quiz String) (uid : String) (now : Nat),
        ((startV2 (some q) uid now).1).onOk fun v =>
          v.questions = q.questions.map sanitizeQV2)
    ∧ (∀ (question : Question) (a : String),
        sanitizeQV1 { question with correctAnswer := a } = sanitizeQV1 question)
    ∧ (∀ (question : Question) (a : String),
        sanitizeQV2 { question with correctAnswer := a } = sanitizeQV2 question)
    ∧ (∀ {π : Type} (q : Quiz π) (uid : String) (qi : Int) (ans : String) (now : Nat),
        ((submitAnswer (some q) uid qi ans now).1).onOk fun v =>
          some v.correctAnswer = (jsIndex q.questions qi).map Question.correctAnswer)
    ∧ ∀ {π : Type} (q : Quiz π) (s : String),
        (getAdmin (some q) s).onOk fun v => v = q := by
  refine ⟨?_, ?_, ?_, ?_, ?_, ?_, ?_, ?_, ?_, ?_⟩
  · intro q uid
    simp [getPublicV1, Resp.onOk]
  · intro q
    simp [getPublicV2, Resp.onOk]
  · intro q code uid un
    by_cases h1 : code = "" ∨ uid = "" ∨ un = ""
    · simp [joinV1, h1, Resp.onOk]
    · by_cases h2 : q.status = "pending"
      · cases hfind : q.participants.find? (fun p => p.userId == uid) <;>
          simp [joinV1, h1, h2, hfind, Resp.onOk, joinQuizViewV1]
      · simp [joinV1, h1, h2, Resp.onOk]
  · intro q uid
    by_cases h2 : q.status = "waiting"
    · by_cases hmem : uid ∈ q.participants <;> simp [joinV2, h2, hmem, Resp.onOk]
    · simp [joinV2, h2, Resp.onOk]
  · intro q code cn now
    by_cases h1 : code = "" ∨ cn = ""
    · simp [startV1, h1, Resp.onOk]
    · by_cases h2 : q.creatorName = cn
      · by_cases h3 : q.status = "active"
        · simp [startV1, h1, h2, h3, Resp.onOk]
        · by_cases h4 : q.participants.length < 1
          · simp [startV1, h1, h2, h3, h4, Resp.onOk]
          · simp [startV1, h1, h2, h3, h4, Resp.onOk]
      · simp [startV1, h1, h2, Resp.onOk]
  · intro q uid now
    by_cases h2 : q.createdBy = uid
    · by_cases h3 : q.participants.length = 0
      · simp [startV2, h2, h3, Resp.onOk]
      · simp [startV2, h2, h3, Resp.onOk]
    · simp [startV2, h2, Resp.onOk]
  · intro question a
    rfl
  · intro question a
    rfl
  · intro π q uid qi ans now
    simp only [submitAnswer]
    split
    · simp [Resp.onOk]
    · split
      · simp [Resp.onOk]
      · rename_i heq
        simp [Resp.onOk, heq]
  · intro π q s
    simp only [getAdmin]
    split <;> simp [Resp.onOk]
